import Mathlib

/-!
Notification relay (`server.js`): embedding and verified properties.

The server exposes three handlers: `GET /api/patient/:id`,
`POST /api/send-email` (multipart, optional attachment staged by multer) and
`POST /api/send-sms` (fan-out over `Promise.all`).  Every handler is embedded
as a pure function of its request and of the replies of its collaborators
(store, mail provider, SMS provider, file system, clock).
-/

namespace Server

/-! ## Strings, paths and the staging name -/

/-- Pieces of a character list cut at every comma, as `String.prototype.split(',')`
cuts a string: a list with `k` commas gives `k + 1` pieces, the empty list gives
one empty piece. -/
def splitChars : List Char → List (List Char)
  | [] => [[]]
  | c :: cs =>
    if c = ',' then [] :: splitChars cs
    else
      match splitChars cs with
      | [] => [[c]]
      | p :: ps => (c :: p) :: ps

/-- The call `s.split(',')` of line 94. -/
def split (s : String) : List String :=
  (splitChars s.data).map String.mk

/-- The call `path.join(dir, name)` for a normalised directory and a single
path segment `name` (no separator, neither `.` nor `..`): the staged names of
line 43 are such segments, and `uploadsDir` is itself the result of a join. -/
def pathJoin (dir name : String) : String :=
  dir ++ "/" ++ name

/-- The template literal of line 43: the decimal clock reading, a hyphen and the
original name.  Clock readings are non-negative integers far below `10^21`, the
range in which JavaScript prints a number as its plain decimal digits. -/
def stagedName (now : Nat) (originalname : String) : String :=
  toString now ++ "-" ++ originalname

/-- The fields of `req.file` the handler reads (multer's disk storage). -/
structure UploadedFile where
  originalname : String
  filename : String
  path : String
  deriving DecidableEq, Repr

/-- Multer's disk storage with the `destination` and `filename` callbacks of
lines 42-43: the file is written to `path.join(uploadsDir, filename)`. -/
def stage (uploadsDir : String) (now : Nat) (originalname : String) : UploadedFile :=
  { originalname := originalname
    filename := stagedName now originalname
    path := pathJoin uploadsDir (stagedName now originalname) }

/-! ## Record lookup: `GET /api/patient/:id` (lines 72-85) -/

/-- An error object handed to a callback or carried by a rejected promise; the
handlers read only its `message`. -/
structure JsError where
  message : String
  deriving DecidableEq, Repr

/-- The arguments `(err, result)` the store passes to the query callback. -/
structure StoreReply (Row : Type) where
  err : Option JsError
  result : List Row

/-- The store as the handler sees it: query text and parameters to a reply. -/
abbrev Store (Row : Type) := String → List String → StoreReply Row

/-- Bodies written by the lookup handler: `{ error }` or the row itself. -/
inductive PatientBody (Row : Type) where
  | error (error : String)
  | record (row : Row)
  deriving DecidableEq, Repr

structure PatientResponse (Row : Type) where
  status : Nat
  body : PatientBody Row
  deriving DecidableEq, Repr

/-- The query callback of lines 76-84. -/
def patientCallback {Row : Type} (reply : StoreReply Row) : PatientResponse Row :=
  match reply.err with
  | some _ => ⟨500, .error "Database query error"⟩
  | none =>
    match reply.result with
    | [] => ⟨404, .error "Patient not found"⟩
    | row :: _ => ⟨200, .record row⟩

/-- The handler of line 72: one parameterised query, then the callback. -/
def getPatient {Row : Type} (db : Store Row) (patientId : String) : PatientResponse Row :=
  patientCallback (db "SELECT * FROM Patients WHERE patient_id = ?" [patientId])

/-! ## Email: `POST /api/send-email` (lines 88-125) -/

/-- The text fields of the multipart form; a field that was not sent is `none`. -/
structure EmailForm where
  recipientEmails : Option String
  subject : Option String
  body : Option String
  deriving DecidableEq, Repr

structure Attachment where
  filename : String
  path : String
  deriving DecidableEq, Repr

/-- The object literal of lines 92-105; `attachments` is `none` when the spread
of line 97 adds no field. -/
structure MailOptions where
  from_ : Option String
  to_ : List String
  subject : Option String
  text : Option String
  attachments : Option (List Attachment)
  deriving DecidableEq, Repr

/-- The provider metadata passed to the `sendMail` callback on success. -/
structure SentInfo where
  messageId : String
  response : String
  deriving DecidableEq, Repr

inductive EmailBody where
  | failed (error : String)
  | sent (message : String) (info : SentInfo)
  deriving DecidableEq, Repr

structure EmailResponse where
  status : Nat
  body : EmailBody
  deriving DecidableEq, Repr

/-- Field names of the JSON body. -/
def EmailBody.keys : EmailBody → List String
  | .failed _ => ["error"]
  | .sent _ _ => ["message", "info"]

/-- A line written with `console.error` or `console.log`. -/
inductive LogLine where
  | error (text detail : String)
  | log (text detail : String)
  deriving DecidableEq, Repr

/-- What a handler did with the request: it wrote a response, or it threw
before writing one (the framework then answers in its place); `error` is the
class of the thrown value. -/
inductive HandlerResult (R : Type) where
  | responded (response : R)
  | threw (error : String)
  deriving DecidableEq, Repr

/-- The paths that exist in the staging directory. -/
abbrev FileSystem := List String

/-- The call `fs.unlink(path, cb)`: when the callback receives no error the path
is gone, when it receives one the file system is as it was. -/
def unlink (fs : FileSystem) (path : String) (unlinkErr : Option JsError) : FileSystem :=
  match unlinkErr with
  | none => fs.filter (fun q => q ≠ path)
  | some _ => fs

/-- The callback of lines 116-119. -/
def unlinkCallback (path : String) (unlinkErr : Option JsError) : LogLine :=
  match unlinkErr with
  | some e => .error "❌ Error deleting file:" e.message
  | none => .log "✅ File deleted successfully:" path

/-- Everything observable of one run of the email handler. -/
structure EmailRun where
  sent : List MailOptions
  unlinked : List String
  log : List LogLine
  fs : FileSystem
  result : HandlerResult EmailResponse
  deriving DecidableEq, Repr

/-- The object literal of lines 92-105, for a recipient string that is present. -/
def mailOptions (gmailUser : Option String) (uploadsDir : String) (recipientEmails : String)
    (subject body : Option String) (file : Option UploadedFile) : MailOptions :=
  { from_ := gmailUser
    to_ := split recipientEmails
    subject := subject
    text := body
    attachments := file.map fun f =>
      [{ filename := f.originalname, path := pathJoin uploadsDir f.filename }] }

/-- The handler of lines 88-125.  `sendMail` is the provider's reply to a
message, `unlinkErr` the file system's reply to the deletion, `fs` the staging
directory when the handler starts. -/
def sendEmail (gmailUser : Option String) (uploadsDir : String)
    (sendMail : MailOptions → Except JsError SentInfo) (unlinkErr : Option JsError)
    (fs : FileSystem) (form : EmailForm) (file : Option UploadedFile) : EmailRun :=
  match form.recipientEmails with
  | none =>
    { sent := [], unlinked := [], log := [], fs := fs
      result := .threw "TypeError" }
  | some recipientEmails =>
    let options := mailOptions gmailUser uploadsDir recipientEmails form.subject form.body file
    match sendMail options with
    | .error err =>
      { sent := [options], unlinked := []
        log := [.error "❌ Error sending email:" err.message]
        fs := fs
        result := .responded ⟨500, .failed "Failed to send email"⟩ }
    | .ok info =>
      match file with
      | some f =>
        { sent := [options], unlinked := [f.path]
          log := [.log "✅ Email sent successfully:" info.response, unlinkCallback f.path unlinkErr]
          fs := unlink fs f.path unlinkErr
          result := .responded ⟨200, .sent "Email sent successfully" info⟩ }
      | none =>
        { sent := [options], unlinked := []
          log := [.log "✅ Email sent successfully:" info.response]
          fs := fs
          result := .responded ⟨200, .sent "Email sent successfully" info⟩ }

/-! ## SMS: `POST /api/send-sms` (lines 128-142) -/

/-- The argument of `twilioClient.messages.create` (lines 132-136). -/
structure SmsCall where
  body : String
  from_ : Option String
  to_ : String
  deriving DecidableEq, Repr

inductive SmsBody (Receipt : Type) where
  | sent (message : String) (results : List Receipt)
  | failed (error : String) (details : String)
  deriving DecidableEq, Repr

structure SmsResponse (Receipt : Type) where
  status : Nat
  body : SmsBody Receipt
  deriving DecidableEq, Repr

/-- Field names of the JSON body. -/
def SmsBody.keys {Receipt : Type} : SmsBody Receipt → List String
  | .sent _ _ => ["message", "results"]
  | .failed _ _ => ["error", "details"]

/-- The `results` field of the body, when it has one. -/
def SmsBody.results {Receipt : Type} : SmsBody Receipt → Option (List Receipt)
  | .sent _ results => some results
  | .failed _ _ => none

/-- The `details` field of the body, when it has one. -/
def SmsBody.details {Receipt : Type} : SmsBody Receipt → Option String
  | .sent _ _ => none
  | .failed _ details => some details

/-- The resolve-element loop of `Promise.all`: the promises settle in the order
`order`; a fulfilment stores its value in the slot of its index and resolves
the aggregate when the count of outstanding elements reaches zero, a rejection
rejects the aggregate at once.  `none` means the aggregate is still pending. -/
def settleAll {ε α : Type} (ps : List (Except ε α)) :
    List Nat → List (Option α) → Nat → Option (Except ε (List α))
  | [], _, _ => none
  | i :: rest, values, remaining =>
    match ps[i]? with
    | none => settleAll ps rest values remaining
    | some (.error e) => some (.error e)
    | some (.ok v) =>
      if remaining - 1 = 0 then some (.ok ((values.set i (some v)).filterMap id))
      else settleAll ps rest (values.set i (some v)) (remaining - 1)

/-- The call `Promise.all(ps)` when the promises settle in the order `order`;
an empty array resolves at once with an empty array. -/
def promiseAll {ε α : Type} (ps : List (Except ε α)) (order : List Nat) :
    Option (Except ε (List α)) :=
  if ps.length = 0 then some (.ok [])
  else settleAll ps order (List.replicate ps.length none) ps.length

/-- The provider calls of lines 131-137, one per element of the array. -/
def smsCalls (twilioPhoneNumber : Option String) (recipientPhones : List String)
    (message : String) : List SmsCall :=
  recipientPhones.map fun phone =>
    { body := message, from_ := twilioPhoneNumber, to_ := phone }

/-- Everything observable of one run of the SMS handler; `response` is `none`
while the aggregate promise is pending. -/
structure SmsRun (Receipt : Type) where
  calls : List SmsCall
  response : Option (SmsResponse Receipt)
  deriving DecidableEq, Repr

/-- The handler of lines 128-142.  `create i call` is how the provider settles
the `i`-th call, `order` the order in which the calls settle. -/
def sendSms {Receipt : Type} (twilioPhoneNumber : Option String)
    (create : Nat → SmsCall → Except JsError Receipt) (order : List Nat)
    (recipientPhones : List String) (message : String) : SmsRun Receipt :=
  let calls := smsCalls twilioPhoneNumber recipientPhones message
  let sendPromises := calls.mapIdx fun i call => create i call
  { calls := calls
    response := (promiseAll sendPromises order).map fun settled =>
      match settled with
      | .ok results => ⟨200, .sent "SMS sent successfully" results⟩
      | .error err => ⟨500, .failed "Failed to send SMS" err.message⟩ }

/-- The first failure met when the sends settle in the order `order`. -/
def firstRejection {ε α : Type} (ps : List (Except ε α)) (order : List Nat) : Option ε :=
  order.findSome? fun i =>
    match ps[i]? with
    | some (Except.error e) => some e
    | _ => none

/-- Decimal digits of a number, most significant first, by recursion on the
quotient: the reference against which the fuelled loop of `Nat.repr` is read. -/
def decDigits (n : Nat) : List Char :=
  if n < 10 then [Nat.digitChar n]
  else decDigits (n / 10) ++ [Nat.digitChar (n % 10)]
termination_by n
decreasing_by omega

/-! ## Helper lemmas on decimal digits -/

theorem digitChar_ne_hyphen (d : Nat) (hd : d < 10) : Nat.digitChar d ≠ '-' := by
  interval_cases d <;> decide

theorem digitChar_inj (a b : Nat) (ha : a < 10) (hb : b < 10)
    (h : Nat.digitChar a = Nat.digitChar b) : a = b := by
  interval_cases a <;> interval_cases b <;> first | rfl | (exfalso; revert h; decide)

theorem toDigitsCore_eq_decDigits (fuel : Nat) : ∀ (n : Nat) (ds : List Char), n < fuel →
    Nat.toDigitsCore 10 fuel n ds = decDigits n ++ ds := by
  induction fuel with
  | zero => intro n ds h; omega
  | succ f ih =>
    intro n ds h
    rw [decDigits]
    by_cases h10 : n < 10
    · have h0 : n / 10 = 0 := by omega
      have hm : n % 10 = n := by omega
      simp [Nat.toDigitsCore, h0, hm, h10]
    · have hne : n / 10 ≠ 0 := by omega
      have hlt : n / 10 < f := by omega
      simp only [Nat.toDigitsCore, hne, if_false, h10]
      rw [ih (n / 10) _ hlt]
      simp

theorem repr_data (n : Nat) : (toString n).data = decDigits n := by
  show (Nat.repr n).data = decDigits n
  simp [Nat.repr, Nat.toDigits, List.asString, toDigitsCore_eq_decDigits
    (n + 1) n [] (Nat.lt_succ_self n)]

theorem decDigits_ne_nil (n : Nat) : decDigits n ≠ [] := by
  rw [decDigits]; split <;> simp

theorem hyphen_not_mem_decDigits : ∀ n : Nat, '-' ∉ decDigits n := by
  intro n
  induction n using Nat.strong_induction_on with
  | _ n ih =>
    rw [decDigits]
    split
    · rename_i h
      simp only [List.mem_singleton]
      exact fun e => digitChar_ne_hyphen n h e.symm
    · rename_i h
      simp only [List.mem_append, List.mem_singleton, not_or]
      exact ⟨ih (n / 10) (by omega),
        fun e => digitChar_ne_hyphen (n % 10) (Nat.mod_lt _ (by decide)) e.symm⟩

theorem decDigits_inj : ∀ n m : Nat, decDigits n = decDigits m → n = m := by
  intro n
  induction n using Nat.strong_induction_on with
  | _ n ih =>
    intro m h
    rw [decDigits, decDigits.eq_1 m] at h
    by_cases hn : n < 10 <;> by_cases hm : m < 10
    · simp only [hn, hm, if_true, List.cons.injEq, and_true] at h
      exact digitChar_inj n m hn hm h
    · simp only [hn, hm, if_true, if_false] at h
      have hl := congrArg List.length h
      have := List.length_pos.mpr (decDigits_ne_nil (m / 10))
      simp only [List.length_append, List.length_singleton, List.length_cons,
        List.length_nil] at hl
      omega
    · simp only [hn, hm, if_true, if_false] at h
      have hl := congrArg List.length h
      have := List.length_pos.mpr (decDigits_ne_nil (n / 10))
      simp only [List.length_append, List.length_singleton, List.length_cons,
        List.length_nil] at hl
      omega
    · simp only [hn, hm, if_false] at h
      have h1 := List.append_inj_left' h rfl
      have h2 := List.append_inj_right' h rfl
      simp only [List.cons.injEq, and_true] at h2
      have q := ih (n / 10) (by omega) (m / 10) h1
      have r := digitChar_inj _ _ (Nat.mod_lt n (by decide)) (Nat.mod_lt m (by decide)) h2
      omega

/-- A separator that occurs in neither prefix splits two lists the same way. -/
theorem append_sep_inj {α : Type} (sep : α) : ∀ (a b x y : List α),
    sep ∉ a → sep ∉ b → a ++ sep :: x = b ++ sep :: y → a = b ∧ x = y := by
  intro a
  induction a with
  | nil =>
    intro b x y _ hb h
    cases b with
    | nil => simpa using h
    | cons c cs =>
      simp only [List.nil_append, List.cons_append, List.cons.injEq] at h
      exact absurd (h.1 ▸ List.mem_cons_self _ _) hb
  | cons c cs ih =>
    intro b x y ha hb h
    cases b with
    | nil =>
      simp only [List.nil_append, List.cons_append, List.cons.injEq] at h
      exact absurd (h.1 ▸ List.mem_cons_self _ _) ha
    | cons d ds =>
      simp only [List.cons_append, List.cons.injEq] at h
      have := ih ds x y (fun m => ha (List.mem_cons_of_mem _ m))
        (fun m => hb (List.mem_cons_of_mem _ m)) h.2
      exact ⟨by rw [h.1, this.1], this.2⟩

theorem stagedName_data (t : Nat) (n : String) :
    (stagedName t n).data = decDigits t ++ '-' :: n.data := by
  simp [stagedName, String.data_append, repr_data]

/-! ## Helper lemmas on splitting -/

theorem splitChars_ne_nil : ∀ cs : List Char, splitChars cs ≠ []
  | [] => by simp [splitChars]
  | c :: cs => by
    unfold splitChars
    split
    · simp
    · split <;> simp

theorem comma_not_mem_splitChars : ∀ (cs : List Char), ∀ p ∈ splitChars cs, ',' ∉ p
  | [] => by simp [splitChars]
  | c :: cs => by
    intro p hp
    have ih := comma_not_mem_splitChars cs
    unfold splitChars at hp
    split at hp
    · rcases List.mem_cons.mp hp with h | h
      · simp [h]
      · exact ih p h
    · rename_i hc
      split at hp
      · rename_i e
        exact absurd e (splitChars_ne_nil cs)
      · rename_i q qs e
        rw [e] at ih
        rcases List.mem_cons.mp hp with h | h
        · subst h
          intro hm
          rcases List.mem_cons.mp hm with h1 | h1
          · exact hc h1.symm
          · exact ih q (List.mem_cons_self _ _) h1
        · exact ih p (List.mem_cons_of_mem _ h)

/-- Gluing the pieces back with commas gives the list that was cut. -/
theorem intercalate_splitChars : ∀ cs : List Char,
    List.intercalate [','] (splitChars cs) = cs
  | [] => by simp [splitChars, List.intercalate]
  | c :: cs => by
    have ih := intercalate_splitChars cs
    unfold splitChars
    split
    · rename_i hc
      rcases hs : splitChars cs with _ | ⟨q, qs⟩
      · exact absurd hs (splitChars_ne_nil cs)
      · rw [hs] at ih
        simp only [List.intercalate, List.intersperse, List.flatten_cons, List.nil_append,
          List.singleton_append] at ih ⊢
        rw [ih, hc]
    · split
      · rename_i e
        exact absurd e (splitChars_ne_nil cs)
      · rename_i q qs e
        rw [e] at ih
        cases qs with
        | nil =>
          simp only [List.intercalate, List.intersperse, List.flatten_cons, List.flatten_nil,
            List.append_nil] at ih ⊢
          rw [ih]
        | cons r rs =>
          simp only [List.intercalate, List.intersperse, List.flatten_cons,
            List.cons_append] at ih ⊢
          rw [ih]

theorem intercalate_go_data (sep : String) : ∀ (l : List String) (acc : String),
    (String.intercalate.go acc sep l).data =
      acc.data ++ (l.map fun a => sep.data ++ a.data).flatten
  | [], acc => by simp [String.intercalate.go]
  | a :: l, acc => by
    simp [String.intercalate.go, intercalate_go_data sep l, String.data_append,
      List.append_assoc]

theorem intercalate_data (sep : String) : ∀ l : List String,
    (sep.intercalate l).data = List.intercalate sep.data (l.map String.data)
  | [] => by simp [String.intercalate, List.intercalate]
  | a :: l => by
    simp only [String.intercalate, intercalate_go_data, List.intercalate, List.map_cons]
    induction l generalizing a with
    | nil => simp
    | cons b l ih =>
      simp only [List.map_cons, List.flatten_cons, List.intersperse, List.append_assoc]
      rw [ih b]

theorem intercalate_split (r : String) : ",".intercalate (split r) = r := by
  apply String.ext
  rw [intercalate_data]
  have : (split r).map String.data = splitChars r.data := by
    simp [split, Function.comp_def]
  rw [this]
  exact intercalate_splitChars r.data

theorem comma_not_mem_split (r : String) : ∀ a ∈ split r, ',' ∉ a.data := by
  intro a ha
  simp only [split, List.mem_map] at ha
  obtain ⟨p, hp, rfl⟩ := ha
  exact comma_not_mem_splitChars r.data p hp

theorem split_ne_nil (r : String) : split r ≠ [] := by
  simp [split, splitChars_ne_nil]

theorem stagedName_eval : stagedName 1700000000000 "a-1.txt" = "1700000000000-a-1.txt" := by
  decide

theorem split_eval_two : split "a@x.com,b@x.com" = ["a@x.com", "b@x.com"] := by decide

theorem split_eval_empty : split "" = [""] := by decide

theorem split_eval_edges : split ",a," = ["", "a", ""] := by decide

/-! ## Record lookup -/

/-- C1: the lookup answers 500 `{error}` exactly when the store reports an error,
404 `{error: 'Patient not found'}` exactly when it reports no error and no row,
and otherwise 200 with the first row as body; the answer is a function of the
store's reply alone, so the same reply gives the same record. -/
theorem getPatient_response {Row : Type} (db : Store Row) (patientId : String) :
    let reply := db "SELECT * FROM Patients WHERE patient_id = ?" [patientId]
    let r := getPatient db patientId
    (r = ⟨500, .error "Database query error"⟩ ↔ reply.err ≠ none) ∧
    (r.status = 500 ↔ reply.err ≠ none) ∧
    (r = ⟨404, .error "Patient not found"⟩ ↔ reply.err = none ∧ reply.result = []) ∧
    (r.status = 404 ↔ reply.err = none ∧ reply.result = []) ∧
    ((reply.err = none ∧ reply.result ≠ []) ↔
      ∃ row, reply.result.head? = some row ∧ r = ⟨200, .record row⟩) ∧
    (r.status = 200 ↔ reply.err = none ∧ reply.result ≠ []) ∧
    r = patientCallback reply := by
  intro reply r
  show (patientCallback reply = _ ↔ _) ∧ ((patientCallback reply).status = 500 ↔ _) ∧
    (patientCallback reply = _ ↔ _) ∧ ((patientCallback reply).status = 404 ↔ _) ∧
    (_ ↔ ∃ row, _ ∧ patientCallback reply = _) ∧ ((patientCallback reply).status = 200 ↔ _) ∧
    patientCallback reply = patientCallback reply
  unfold patientCallback
  rcases he : reply.err with _ | e
  · rcases hr : reply.result with _ | ⟨row, rest⟩ <;> simp
  · simp

/-! ## File staging -/

/-- C10: the staged file name is the decimal clock reading, a hyphen and the
original name, and two staged names are equal exactly when both the clock
readings and the original names are equal. -/
theorem stagedName_collision_free (uploadsDir : String) (t1 t2 : Nat) (n1 n2 : String) :
    (stage uploadsDir t1 n1).filename = toString t1 ++ "-" ++ n1 ∧
    ((stage uploadsDir t1 n1).filename).data = decDigits t1 ++ '-' :: n1.data ∧
    ((stage uploadsDir t1 n1).filename = (stage uploadsDir t2 n2).filename ↔
      t1 = t2 ∧ n1 = n2) := by
  refine ⟨rfl, stagedName_data t1 n1, ?_⟩
  constructor
  · intro h
    have hd := congrArg String.data h
    simp only [stage, stagedName_data] at hd
    obtain ⟨ht, hn⟩ := append_sep_inj '-' _ _ _ _ (hyphen_not_mem_decDigits t1)
      (hyphen_not_mem_decDigits t2) hd
    exact ⟨decDigits_inj t1 t2 ht, String.ext hn⟩
  · rintro ⟨rfl, rfl⟩
    rfl

/-! ## Email dispatch -/

/-- The handler reads the provider only at the message it composed. -/
theorem sendEmail_congr (gmailUser : Option String) (uploadsDir : String)
    (sendMail sendMail' : MailOptions → Except JsError SentInfo) (unlinkErr : Option JsError)
    (fs : FileSystem) (r : String) (subject body : Option String) (file : Option UploadedFile)
    (h : sendMail (mailOptions gmailUser uploadsDir r subject body file) =
      sendMail' (mailOptions gmailUser uploadsDir r subject body file)) :
    sendEmail gmailUser uploadsDir sendMail unlinkErr fs ⟨some r, subject, body⟩ file =
      sendEmail gmailUser uploadsDir sendMail' unlinkErr fs ⟨some r, subject, body⟩ file := by
  simp only [sendEmail, h]

theorem mem_unlink_self (fs : FileSystem) (path : String) : path ∉ unlink fs path none := by
  simp [unlink]

theorem unlink_others (fs : FileSystem) (path : String) (unlinkErr : Option JsError) :
    (unlink fs path unlinkErr).filter (fun q => q ≠ path) = fs.filter (fun q => q ≠ path) := by
  cases unlinkErr <;> simp [unlink, List.filter_filter]

/-- C5 as stated fails: the send succeeds, the one deletion targets the stored
path, the file system refuses it, and the staged file is still there. -/
theorem sendEmail_unlink_counterexample :
    let f := stage "/srv/uploads" 1700000000000 "scan.pdf"
    let run := sendEmail (some "clinic@gmail.com") "/srv/uploads"
      (fun _ => .ok ⟨"<1@gmail.com>", "250 OK"⟩) (some ⟨"EPERM: operation not permitted"⟩)
      [f.path] ⟨some "a@x.com", some "S", some "B"⟩ (some f)
    run.result = .responded ⟨200, .sent "Email sent successfully" ⟨"<1@gmail.com>", "250 OK"⟩⟩ ∧
    run.unlinked = [f.path] ∧ f.path ∈ run.fs := by
  decide

/-- C5, amended: for a request with an attachment that is staged, a successful
send makes exactly one deletion attempt, at the stored path; when that deletion
succeeds the file is gone, when it fails the staging directory is as before; a
failed send attempts no deletion and leaves the file; in every case the other
staged files are unchanged. -/
theorem sendEmail_attachment_cleanup (gmailUser : Option String) (uploadsDir : String)
    (fs : FileSystem) (r : String) (subject body : Option String) (f : UploadedFile)
    (info : SentInfo) (err ioErr : JsError) (unlinkErr : Option JsError)
    (hstaged : f.path ∈ fs) :
    let form : EmailForm := ⟨some r, subject, body⟩
    let okRun := sendEmail gmailUser uploadsDir (fun _ => .ok info) none fs form (some f)
    let okRunIo := sendEmail gmailUser uploadsDir (fun _ => .ok info) (some ioErr) fs form (some f)
    let okAny := sendEmail gmailUser uploadsDir (fun _ => .ok info) unlinkErr fs form (some f)
    let failRun := sendEmail gmailUser uploadsDir (fun _ => .error err) unlinkErr fs form (some f)
    (okRun.unlinked = [f.path] ∧ f.path ∉ okRun.fs) ∧
    (okRunIo.unlinked = [f.path] ∧ okRunIo.fs = fs ∧ f.path ∈ okRunIo.fs) ∧
    (failRun.unlinked = [] ∧ failRun.fs = fs ∧ f.path ∈ failRun.fs) ∧
    okAny.fs.filter (fun q => q ≠ f.path) = fs.filter (fun q => q ≠ f.path) ∧
    failRun.fs.filter (fun q => q ≠ f.path) = fs.filter (fun q => q ≠ f.path) := by
  intro form okRun okRunIo okAny failRun
  refine ⟨⟨rfl, mem_unlink_self fs f.path⟩, ⟨rfl, rfl, hstaged⟩, ⟨rfl, rfl, hstaged⟩, ?_, rfl⟩
  exact unlink_others fs f.path unlinkErr

theorem sendEmail_attachment_cleanup_witness :
    (stage "/srv/uploads" 1700000000000 "scan.pdf").path ∈
      ([(stage "/srv/uploads" 1700000000000 "scan.pdf").path,
        "/srv/uploads/1699999999999-old.txt"] : FileSystem) ∧
    (stage "/srv/uploads" 1700000000000 "scan.pdf").path ∉
      (sendEmail none "/srv/uploads" (fun _ => .ok ⟨"<1@gmail.com>", "250 OK"⟩) none
        [(stage "/srv/uploads" 1700000000000 "scan.pdf").path,
          "/srv/uploads/1699999999999-old.txt"]
        ⟨some "a@x.com", some "S", some "B"⟩
        (some (stage "/srv/uploads" 1700000000000 "scan.pdf"))).fs :=
  ⟨by decide,
    (sendEmail_attachment_cleanup none "/srv/uploads"
      [(stage "/srv/uploads" 1700000000000 "scan.pdf").path,
        "/srv/uploads/1699999999999-old.txt"]
      "a@x.com" (some "S") (some "B") (stage "/srv/uploads" 1700000000000 "scan.pdf")
      ⟨"<1@gmail.com>", "250 OK"⟩ ⟨"Invalid login"⟩ ⟨"EPERM"⟩ none (by decide)).1.2⟩

/-- C6 as stated fails: with the subject missing the provider is still invoked
and the request is answered 200. -/
theorem sendEmail_missing_subject_counterexample :
    let run := sendEmail (some "clinic@gmail.com") "/srv/uploads"
      (fun _ => .ok ⟨"<1@gmail.com>", "250 OK"⟩) none []
      ⟨some "a@x.com", none, some "B"⟩ none
    run.sent = [⟨some "clinic@gmail.com", ["a@x.com"], none, some "B", none⟩] ∧
    run.result = .responded ⟨200, .sent "Email sent successfully" ⟨"<1@gmail.com>", "250 OK"⟩⟩ := by
  decide

/-- C6, amended: when the recipient string is missing the handler throws before
it composes a message and the provider is not invoked; a missing subject or
body is not checked, the provider is invoked once with that field absent and
the response follows the provider (200 with its info when it succeeds, 500
when it fails), whatever fields are missing and with or without a file;
splitting a recipient string that is present never yields zero addresses; and
with the three fields present and no attachment a succeeding provider gives a
200 response. -/
theorem sendEmail_presence (gmailUser : Option String) (uploadsDir : String)
    (sendMail : MailOptions → Except JsError SentInfo) (unlinkErr : Option JsError)
    (fs : FileSystem) (r s b : String) (subject body : Option String)
    (file : Option UploadedFile) (info : SentInfo) (err : JsError) :
    let missing := sendEmail gmailUser uploadsDir sendMail unlinkErr fs ⟨none, subject, body⟩ file
    let present := sendEmail gmailUser uploadsDir sendMail unlinkErr fs ⟨some r, subject, body⟩ file
    let noFile := sendEmail gmailUser uploadsDir (fun _ => .ok info) unlinkErr fs
      ⟨some r, some s, some b⟩ none
    let okRun := sendEmail gmailUser uploadsDir (fun _ => .ok info) unlinkErr fs
      ⟨some r, subject, body⟩ file
    let failRun := sendEmail gmailUser uploadsDir (fun _ => .error err) unlinkErr fs
      ⟨some r, subject, body⟩ file
    (missing.sent = [] ∧ missing.unlinked = [] ∧ missing.fs = fs ∧
      missing.result = .threw "TypeError") ∧
    (present.sent = [mailOptions gmailUser uploadsDir r subject body file] ∧
      (mailOptions gmailUser uploadsDir r subject body file).subject = subject ∧
      (mailOptions gmailUser uploadsDir r subject body file).text = body) ∧
    present.result =
      (match sendMail (mailOptions gmailUser uploadsDir r subject body file) with
        | .ok sentInfo => .responded ⟨200, .sent "Email sent successfully" sentInfo⟩
        | .error _ => .responded ⟨500, .failed "Failed to send email"⟩) ∧
    (okRun.sent = [mailOptions gmailUser uploadsDir r subject body file] ∧
      okRun.result = .responded ⟨200, .sent "Email sent successfully" info⟩) ∧
    (failRun.sent = [mailOptions gmailUser uploadsDir r subject body file] ∧
      failRun.result = .responded ⟨500, .failed "Failed to send email"⟩) ∧
    split r ≠ [] ∧
    (noFile.result = .responded ⟨200, .sent "Email sent successfully" info⟩ ∧
      noFile.unlinked = []) := by
  intro missing present noFile okRun failRun
  refine ⟨⟨rfl, rfl, rfl, rfl⟩, ⟨?_, rfl, rfl⟩, ?_, ⟨?_, ?_⟩, ⟨rfl, rfl⟩, split_ne_nil r,
    ⟨rfl, rfl⟩⟩
  · show (sendEmail gmailUser uploadsDir sendMail unlinkErr fs ⟨some r, subject, body⟩ file).sent
      = _
    simp only [sendEmail]
    split
    · rfl
    · split <;> rfl
  · show (sendEmail gmailUser uploadsDir sendMail unlinkErr fs
      ⟨some r, subject, body⟩ file).result = _
    simp only [sendEmail]
    rcases hs : sendMail (mailOptions gmailUser uploadsDir r subject body file) with e | i
    · rfl
    · cases file <;> rfl
  · cases file <;> rfl
  · cases file <;> rfl

/-- C7 as stated fails: two different provider errors give the same response,
whose body does not carry either detail. -/
theorem sendEmail_failure_body_counterexample :
    let run := fun (e : JsError) => sendEmail (some "clinic@gmail.com") "/srv/uploads"
      (fun _ => .error e) none [] ⟨some "a@x.com", some "S", some "B"⟩ none
    (⟨"Invalid login"⟩ : JsError) ≠ ⟨"connect ECONNREFUSED"⟩ ∧
    (run ⟨"Invalid login"⟩).result = (run ⟨"connect ECONNREFUSED"⟩).result ∧
    (run ⟨"Invalid login"⟩).result = .responded ⟨500, .failed "Failed to send email"⟩ := by
  decide

/-- C7, amended: when the provider send fails the response is 500 with the fixed
body `{error: 'Failed to send email'}`, the same for every provider error; the
provider's detail goes to the log only. -/
theorem sendEmail_failure_response (gmailUser : Option String) (uploadsDir : String)
    (sendMail : MailOptions → Except JsError SentInfo) (unlinkErr : Option JsError)
    (fs : FileSystem) (r : String) (subject body : Option String)
    (file : Option UploadedFile) (err : JsError)
    (hfail : sendMail (mailOptions gmailUser uploadsDir r subject body file) = .error err) :
    let run := sendEmail gmailUser uploadsDir sendMail unlinkErr fs ⟨some r, subject, body⟩ file
    run.result = .responded ⟨500, .failed "Failed to send email"⟩ ∧
    run.log = [.error "❌ Error sending email:" err.message] ∧
    (EmailBody.failed "Failed to send email").keys = ["error"] := by
  intro run
  show (sendEmail gmailUser uploadsDir sendMail unlinkErr fs ⟨some r, subject, body⟩ file).result = _
    ∧ (sendEmail gmailUser uploadsDir sendMail unlinkErr fs ⟨some r, subject, body⟩ file).log = _
    ∧ _
  refine ⟨?_, ?_, rfl⟩ <;> simp [sendEmail, hfail]

theorem sendEmail_failure_response_witness :
    (sendEmail none "/srv/uploads" (fun _ => .error ⟨"Invalid login"⟩) none []
      ⟨some "a@x.com", some "S", some "B"⟩ none).result =
        .responded ⟨500, .failed "Failed to send email"⟩ :=
  (sendEmail_failure_response none "/srv/uploads" (fun _ => .error ⟨"Invalid login"⟩) none []
    "a@x.com" (some "S") (some "B") none ⟨"Invalid login"⟩ rfl).1

/-- C8: the message handed to the provider is addressed to the pieces of the
recipient string cut at its commas, in order, carries the given subject and the
given body as text, has one attachment (display name the original name, path
the stored path in the staging directory) when a file is present and no
attachments field when none is; the request `a@x.com,b@x.com` / `S` / `B`
without a file and with a succeeding provider is answered 200 with a message
field and the provider info, and no deletion is attempted. -/
theorem sendEmail_message (gmailUser : Option String) (uploadsDir : String)
    (sendMail : MailOptions → Except JsError SentInfo) (unlinkErr : Option JsError)
    (fs : FileSystem) (r s b : String) (file : Option UploadedFile) (f : UploadedFile)
    (now : Nat) (name : String) (info : SentInfo) :
    let m := mailOptions gmailUser uploadsDir r (some s) (some b) file
    let scenario := sendEmail gmailUser uploadsDir (fun _ => .ok info) unlinkErr fs
      ⟨some "a@x.com,b@x.com", some "S", some "B"⟩ none
    (sendEmail gmailUser uploadsDir sendMail unlinkErr fs ⟨some r, some s, some b⟩ file).sent
      = [m] ∧
    m.to_ = split r ∧ ",".intercalate m.to_ = r ∧ (∀ a ∈ m.to_, ',' ∉ a.data) ∧
    m.subject = some s ∧ m.text = some b ∧ m.from_ = gmailUser ∧
    (mailOptions gmailUser uploadsDir r (some s) (some b) none).attachments = none ∧
    (mailOptions gmailUser uploadsDir r (some s) (some b) (some f)).attachments =
      some [⟨f.originalname, pathJoin uploadsDir f.filename⟩] ∧
    (mailOptions gmailUser uploadsDir r (some s) (some b) (some f)).attachments =
      some [⟨f.originalname, uploadsDir ++ "/" ++ f.filename⟩] ∧
    (mailOptions gmailUser uploadsDir r (some s) (some b)
      (some (stage uploadsDir now name))).attachments =
      some [⟨name, (stage uploadsDir now name).path⟩] ∧
    (stage uploadsDir now name).path = uploadsDir ++ "/" ++ (toString now ++ "-" ++ name) ∧
    (stage uploadsDir now name).path.data =
      uploadsDir.data ++ '/' :: (decDigits now ++ '-' :: name.data) ∧
    (uploadsDir.data ++ ['/']) <+: (stage uploadsDir now name).path.data ∧
    (mailOptions (some "clinic@gmail.com") "/srv/uploads" "a@x.com" (some "S") (some "B")
      (some (stage "/srv/uploads" 1700000000000 "scan.pdf"))).attachments =
      some [⟨"scan.pdf", "/srv/uploads/1700000000000-scan.pdf"⟩] ∧
    scenario.sent = [⟨gmailUser, ["a@x.com", "b@x.com"], some "S", some "B", none⟩] ∧
    scenario.result = .responded ⟨200, .sent "Email sent successfully" info⟩ ∧
    (EmailBody.sent "Email sent successfully" info).keys = ["message", "info"] ∧
    scenario.unlinked = [] ∧ scenario.fs = fs := by
  intro m scenario
  have hpath : (stage uploadsDir now name).path.data =
      uploadsDir.data ++ '/' :: (decDigits now ++ '-' :: name.data) := by
    simp [stage, pathJoin, String.data_append, stagedName_data]
  refine ⟨?_, rfl, intercalate_split r, comma_not_mem_split r, rfl, rfl, rfl, rfl, rfl, rfl,
    rfl, rfl, hpath, ?_, by decide, ?_, rfl, rfl, rfl, rfl⟩
  · simp only [sendEmail]
    split
    · rfl
    · split <;> rfl
  · rw [hpath]
    exact ⟨decDigits now ++ '-' :: name.data, by simp⟩
  · have h : split "a@x.com,b@x.com" = ["a@x.com", "b@x.com"] := by decide
    simp [scenario, sendEmail, mailOptions, h]

/-- C9: for a request with an attachment whose provider send succeeds, the
response is 200 `{message: 'Email sent successfully', info}` whatever the
outcome of the deletion: a failing and a succeeding deletion give the same
response, and the failure appears in the log only. -/
theorem sendEmail_unlink_not_escalated (gmailUser : Option String) (uploadsDir : String)
    (sendMail : MailOptions → Except JsError SentInfo) (fs : FileSystem) (r : String)
    (subject body : Option String) (f : UploadedFile) (info : SentInfo)
    (u1 u2 : Option JsError) (ioErr : JsError)
    (hok : sendMail (mailOptions gmailUser uploadsDir r subject body (some f)) = .ok info) :
    let run := fun u =>
      sendEmail gmailUser uploadsDir sendMail u fs ⟨some r, subject, body⟩ (some f)
    (run u1).result = .responded ⟨200, .sent "Email sent successfully" info⟩ ∧
    (run u1).result = (run u2).result ∧
    (run (some ioErr)).result = (run none).result ∧
    (run (some ioErr)).log =
      [.log "✅ Email sent successfully:" info.response,
        .error "❌ Error deleting file:" ioErr.message] := by
  intro run
  simp [run, sendEmail, hok, unlinkCallback]

theorem sendEmail_unlink_not_escalated_witness :
    (sendEmail none "/srv/uploads" (fun _ => .ok ⟨"<1@gmail.com>", "250 OK"⟩)
      (some ⟨"EPERM"⟩) ["/srv/uploads/1-a.txt"] ⟨some "a@x.com", some "S", some "B"⟩
      (some (stage "/srv/uploads" 1 "a.txt"))).result =
    (sendEmail none "/srv/uploads" (fun _ => .ok ⟨"<1@gmail.com>", "250 OK"⟩)
      none ["/srv/uploads/1-a.txt"] ⟨some "a@x.com", some "S", some "B"⟩
      (some (stage "/srv/uploads" 1 "a.txt"))).result :=
  (sendEmail_unlink_not_escalated none "/srv/uploads" (fun _ => .ok ⟨"<1@gmail.com>", "250 OK"⟩)
    ["/srv/uploads/1-a.txt"] "a@x.com" (some "S") (some "B") (stage "/srv/uploads" 1 "a.txt")
    ⟨"<1@gmail.com>", "250 OK"⟩ (some ⟨"EPERM"⟩) none ⟨"EPERM"⟩ rfl).2.1

/-! ## SMS fan-out -/

/-- Slots that hold every value are the values. -/
theorem filterMap_slots {α : Type} (values : List (Option α)) (vs : List α)
    (hlen : values.length = vs.length)
    (hall : ∀ k, k < vs.length → values[k]? = (vs[k]?).map some) :
    values.filterMap id = vs := by
  have : values = vs.map some := by
    apply List.ext_getElem?
    intro k
    by_cases hk : k < vs.length
    · rw [hall k hk, List.getElem?_map]
    · rw [List.getElem?_eq_none (by omega), List.getElem?_eq_none (by simp; omega)]
  rw [this, List.filterMap_map]
  simp

/-- When every promise is fulfilled and the slots of the indices that have
already settled hold their values, the aggregate resolves with all the values
in input order once the last index of `order` settles. -/
theorem settleAll_fulfilled {ε α : Type} (vs : List α) :
    ∀ (order : List Nat) (values : List (Option α)), order ≠ [] →
      values.length = vs.length → (∀ i ∈ order, i < vs.length) →
      (∀ k, k < vs.length → k ∉ order → values[k]? = (vs[k]?).map some) →
      settleAll (vs.map (Except.ok : α → Except ε α)) order values order.length =
        some (.ok vs) := by
  intro order
  induction order with
  | nil => intro values h; exact absurd rfl h
  | cons i rest ih =>
    intro values _ hlen hvalid hslots
    have hi : i < vs.length := hvalid i (List.mem_cons_self _ _)
    have hget : (vs.map (Except.ok : α → Except ε α))[i]? = some (.ok vs[i]) := by
      simp [List.getElem?_map, List.getElem?_eq_getElem hi]
    have hset : ∀ k, k < vs.length → k ∉ rest →
        (values.set i (some vs[i]))[k]? = (vs[k]?).map some := by
      intro k hk hkr
      by_cases hki : i = k
      · subst hki
        rw [List.getElem?_set_self (by omega), List.getElem?_eq_getElem hi]
        rfl
      · rw [List.getElem?_set_ne hki]
        exact hslots k hk (by simp [hkr, Ne.symm hki])
    unfold settleAll
    rw [hget]
    simp only [List.length_cons, Nat.add_sub_cancel]
    by_cases hr : rest = []
    · subst hr
      simp only [List.length_nil, if_true]
      rw [filterMap_slots _ vs (by simp [hlen]) (fun k hk => hset k hk (by simp))]
    · have hne : rest.length ≠ 0 := by
        intro h0
        exact hr (List.length_eq_zero.mp h0)
      simp only [hne, if_false]
      exact ih _ hr (by simp [hlen]) (fun j hj => hvalid j (List.mem_cons_of_mem _ hj)) hset

/-- When some index of `order` holds a rejected promise, the aggregate rejects
with the first rejection met in `order`. -/
theorem settleAll_rejected {ε α : Type} (ps : List (Except ε α)) :
    ∀ (order : List Nat) (values : List (Option α)), (∀ i ∈ order, i < ps.length) →
      (∃ i ∈ order, ∃ e, ps[i]? = some (.error e)) →
      ∃ e, firstRejection ps order = some e ∧
        settleAll ps order values order.length = some (.error e) := by
  intro order
  induction order with
  | nil => intro values _ h; simp at h
  | cons i rest ih =>
    intro values hvalid hfail
    have hi : i < ps.length := hvalid i (List.mem_cons_self _ _)
    rcases hp : ps[i] with e | v
    · refine ⟨e, ?_, ?_⟩
      · simp [firstRejection, List.findSome?, List.getElem?_eq_getElem hi, hp]
      · unfold settleAll
        simp [List.getElem?_eq_getElem hi, hp]
    · have hget : ps[i]? = some (.ok v) := by rw [List.getElem?_eq_getElem hi, hp]
      have hrest : ∃ j ∈ rest, ∃ e, ps[j]? = some (.error e) := by
        obtain ⟨j, hj, e, he⟩ := hfail
        rcases List.mem_cons.mp hj with h | h
        · subst h
          rw [hget] at he
          cases he
        · exact ⟨j, h, e, he⟩
      have hne : rest.length ≠ 0 := by
        obtain ⟨j, hj, _⟩ := hrest
        exact Nat.ne_of_gt (List.length_pos_of_mem hj)
      obtain ⟨e, hfirst, hall⟩ :=
        ih (values.set i (some v)) (fun j hj => hvalid j (List.mem_cons_of_mem _ hj)) hrest
      refine ⟨e, ?_, ?_⟩
      · simpa [firstRejection, List.findSome?, hget] using hfirst
      · unfold settleAll
        rw [hget]
        simp only [List.length_cons, Nat.add_sub_cancel, hne, if_false]
        exact hall

theorem all_fulfilled_eq_map {ε α : Type} : ∀ (ps : List (Except ε α)),
    (∀ i, i < ps.length → ∃ v, ps[i]? = some (.ok v)) →
    ∃ vs : List α, ps = vs.map Except.ok
  | [], _ => ⟨[], rfl⟩
  | p :: ps, h => by
    obtain ⟨v, hv⟩ := h 0 (by simp)
    obtain ⟨vs, hvs⟩ := all_fulfilled_eq_map ps (fun i hi => by
      simpa using h (i + 1) (by simp; omega))
    refine ⟨v :: vs, ?_⟩
    simp only [List.getElem?_cons_zero, Option.some.injEq] at hv
    simp [hv, hvs]

/-- Under any completion order that settles every promise, fulfilled promises
resolve the aggregate with their values in input order. -/
theorem promiseAll_fulfilled {ε α : Type} (vs : List α) (order : List Nat)
    (hperm : order.Perm (List.range vs.length)) :
    promiseAll (vs.map (Except.ok : α → Except ε α)) order = some (.ok vs) := by
  unfold promiseAll
  by_cases h0 : vs.length = 0
  · simp [h0, List.length_eq_zero.mp h0]
  · have hlen : order.length = vs.length := by simpa using hperm.length_eq
    have hne : order ≠ [] := by
      intro h
      rw [h] at hlen
      exact h0 hlen.symm
    simp only [List.length_map, h0, if_false]
    rw [← hlen, settleAll_fulfilled vs order _ hne (by simp [hlen])
      (fun i hi => by simpa using hperm.mem_iff.mp hi)
      (fun k hk hko => absurd (hperm.mem_iff.mpr (by simpa using hk)) hko)]

/-- Under any completion order that settles every promise, one rejected promise
rejects the aggregate with the first rejection met. -/
theorem promiseAll_rejected {ε α : Type} (ps : List (Except ε α)) (order : List Nat)
    (hperm : order.Perm (List.range ps.length))
    (hfail : ∃ (i : Nat) (e : ε), ps[i]? = some (Except.error e)) :
    ∃ e, firstRejection ps order = some e ∧ promiseAll ps order = some (.error e) := by
  obtain ⟨i, e, he⟩ := hfail
  have hi : i < ps.length := by
    by_contra hc
    rw [List.getElem?_eq_none (by omega)] at he
    cases he
  have hlen : order.length = ps.length := by simpa using hperm.length_eq
  have h0 : ps.length ≠ 0 := by omega
  obtain ⟨e', h1, h2⟩ := settleAll_rejected ps order (List.replicate ps.length none)
    (fun j hj => by simpa using hperm.mem_iff.mp hj)
    ⟨i, hperm.mem_iff.mpr (by simpa using hi), e, he⟩
  refine ⟨e', h1, ?_⟩
  unfold promiseAll
  simp only [h0, if_false]
  rw [hlen] at h2
  exact h2

/-- C4 as stated fails: an empty recipient list is answered 200, a success. -/
theorem sendSms_empty_counterexample :
    (sendSms (some "+15550000000") (fun _ _ => (.ok "SM1" : Except JsError String)) []
      [] "Your appointment is tomorrow").response =
      some ⟨200, .sent "SMS sent successfully" []⟩ := by
  decide

/-- C4, amended: for every message, an empty recipient list issues no provider
call and is answered 200 with an empty results list. -/
theorem sendSms_empty {Receipt : Type} (twilioPhoneNumber : Option String)
    (create : Nat → SmsCall → Except JsError Receipt) (order : List Nat) (message : String) :
    (sendSms twilioPhoneNumber create order [] message).calls = [] ∧
    (sendSms twilioPhoneNumber create order [] message).response =
      some ⟨200, .sent "SMS sent successfully" []⟩ := by
  simp [sendSms, smsCalls, promiseAll]

theorem sendPromises_getElem? {Receipt : Type} (twilioPhoneNumber : Option String)
    (create : Nat → SmsCall → Except JsError Receipt) (recipientPhones : List String)
    (message : String) (i : Nat) (h : i < recipientPhones.length) :
    ((smsCalls twilioPhoneNumber recipientPhones message).mapIdx fun i call => create i call)[i]?
      = some (create i ⟨message, twilioPhoneNumber, recipientPhones[i]⟩) := by
  simp [smsCalls, List.getElem?_mapIdx, List.getElem?_map, List.getElem?_eq_getElem h]

/-- C2: when every provider send succeeds, the handler issues one provider call
per recipient (same body, configured sender, `to` that recipient) and answers
200 with a results list as long as the recipient list whose `i`-th entry is the
outcome of the send to the `i`-th recipient, whatever the order in which the
sends complete. -/
theorem sendSms_all_succeed {Receipt : Type} (twilioPhoneNumber : Option String)
    (create : Nat → SmsCall → Except JsError Receipt) (order order' : List Nat)
    (recipientPhones : List String) (message : String)
    (hok : ∀ i (h : i < recipientPhones.length),
      ∃ v, create i ⟨message, twilioPhoneNumber, recipientPhones[i]⟩ = .ok v)
    (hperm : order.Perm (List.range recipientPhones.length))
    (hperm' : order'.Perm (List.range recipientPhones.length)) :
    let run := sendSms twilioPhoneNumber create order recipientPhones message
    run.calls = recipientPhones.map (fun phone => ⟨message, twilioPhoneNumber, phone⟩) ∧
    run.calls.length = recipientPhones.length ∧
    ∃ results : List Receipt,
      run.response = some ⟨200, .sent "SMS sent successfully" results⟩ ∧
      results.length = recipientPhones.length ∧
      (∀ i (h : i < recipientPhones.length), (results[i]?).map Except.ok =
        some (create i ⟨message, twilioPhoneNumber, recipientPhones[i]⟩)) ∧
      sendSms twilioPhoneNumber create order' recipientPhones message = run := by
  intro run
  have hps : ∀ i, i < ((smsCalls twilioPhoneNumber recipientPhones message).mapIdx
      fun i call => create i call).length → ∃ v,
      ((smsCalls twilioPhoneNumber recipientPhones message).mapIdx
        fun i call => create i call)[i]? = some (.ok v) := by
    intro i hi
    have hi' : i < recipientPhones.length := by simpa [smsCalls] using hi
    obtain ⟨v, hv⟩ := hok i hi'
    exact ⟨v, by rw [sendPromises_getElem? _ _ _ _ i hi', hv]⟩
  obtain ⟨vs, hvs⟩ := all_fulfilled_eq_map _ hps
  have hlen : vs.length = recipientPhones.length := by
    have := congrArg List.length hvs
    simpa [smsCalls] using this.symm
  refine ⟨rfl, by simp [run, sendSms, smsCalls], vs, ?_, hlen, ?_, ?_⟩
  · simp only [run, sendSms, hvs]
    rw [promiseAll_fulfilled vs order (by rw [hlen]; exact hperm)]
    rfl
  · intro i h
    rw [← sendPromises_getElem? twilioPhoneNumber create recipientPhones message i h, hvs,
      List.getElem?_map]
  · simp only [run, sendSms, hvs]
    rw [promiseAll_fulfilled vs order (by rw [hlen]; exact hperm),
      promiseAll_fulfilled vs order' (by rw [hlen]; exact hperm')]

theorem sendSms_all_succeed_witness :
    (sendSms (some "+15550000000") (fun i _ => (.ok (10 + i) : Except JsError Nat)) [1, 0]
      ["+15551111111", "+15562222222"] "hi").calls =
      [⟨"hi", some "+15550000000", "+15551111111"⟩,
        ⟨"hi", some "+15550000000", "+15562222222"⟩] :=
  (sendSms_all_succeed (some "+15550000000") (fun i _ => (.ok (10 + i) : Except JsError Nat))
    [1, 0] [0, 1] ["+15551111111", "+15562222222"] "hi" (fun i _ => ⟨10 + i, rfl⟩)
    (List.Perm.swap 0 1 []) (List.Perm.refl _)).1

/-- C3: for a non-empty recipient list, when at least one provider send fails
the handler answers a single 500 whose body has an error field and a details
field carrying the detail of the first failure met, and no results list: no
per-recipient success is reported. -/
theorem sendSms_any_failure {Receipt : Type} (twilioPhoneNumber : Option String)
    (create : Nat → SmsCall → Except JsError Receipt) (order : List Nat)
    (recipientPhones : List String) (message : String)
    (_ : recipientPhones ≠ [])
    (hfail : ∃ (i : Nat) (h : i < recipientPhones.length) (e : JsError),
      create i ⟨message, twilioPhoneNumber, recipientPhones[i]⟩ = .error e)
    (hperm : order.Perm (List.range recipientPhones.length)) :
    let run := sendSms twilioPhoneNumber create order recipientPhones message
    let sendPromises :=
      (smsCalls twilioPhoneNumber recipientPhones message).mapIdx fun i call => create i call
    run.calls = recipientPhones.map (fun phone => ⟨message, twilioPhoneNumber, phone⟩) ∧
    ∃ e : JsError, firstRejection sendPromises order = some e ∧
      run.response = some ⟨500, .failed "Failed to send SMS" e.message⟩ ∧
      (SmsBody.failed "Failed to send SMS" e.message : SmsBody Receipt).keys
        = ["error", "details"] ∧
      (SmsBody.failed "Failed to send SMS" e.message : SmsBody Receipt).details
        = some e.message ∧
      (SmsBody.failed "Failed to send SMS" e.message : SmsBody Receipt).results = none := by
  intro run sendPromises
  obtain ⟨i, hi, e, he⟩ := hfail
  have hlen : sendPromises.length = recipientPhones.length := by
    simp [sendPromises, smsCalls]
  obtain ⟨e', h1, h2⟩ := promiseAll_rejected sendPromises order (by rw [hlen]; exact hperm)
    ⟨i, e, by rw [sendPromises_getElem? _ _ _ _ i hi, he]⟩
  refine ⟨rfl, e', h1, ?_, rfl, rfl, rfl⟩
  show Option.map _ (promiseAll sendPromises order) = _
  rw [h2]
  rfl

theorem sendSms_any_failure_witness :
    (["+15551111111", "+15562222222"] : List String) ≠ [] ∧
    ∃ e : JsError,
      firstRejection ((smsCalls (some "+15550000000") ["+15551111111", "+15562222222"]
        "hi").mapIdx fun i (_ : SmsCall) =>
          if i = 1 then .error ⟨"not a valid phone number"⟩
          else (.ok i : Except JsError Nat)) [0, 1] = some e ∧
      (sendSms (some "+15550000000")
        (fun i _ => if i = 1 then .error ⟨"not a valid phone number"⟩
          else (.ok i : Except JsError Nat))
        [0, 1] ["+15551111111", "+15562222222"] "hi").response =
        some ⟨500, .failed "Failed to send SMS" e.message⟩ :=
  ⟨by decide,
    let h := (sendSms_any_failure (some "+15550000000")
      (fun i _ => if i = 1 then .error ⟨"not a valid phone number"⟩
        else (.ok i : Except JsError Nat))
      [0, 1] ["+15551111111", "+15562222222"] "hi" (by decide)
      ⟨1, by decide, ⟨"not a valid phone number"⟩, rfl⟩ (List.Perm.refl _)).2
    ⟨h.choose, h.choose_spec.1, h.choose_spec.2.1⟩⟩

theorem sendSms_eval_rejected : (sendSms (some "+15550000000")
    (fun i _ => if i = 1 then .error ⟨"bad number"⟩ else (.ok i : Except JsError Nat)) [2, 0, 1]
    ["+1555", "+1556", "+1557"] "hi").response =
      some ⟨500, .failed "Failed to send SMS" "bad number"⟩ := by decide

theorem sendSms_eval_fulfilled : (sendSms (some "+15550000000")
    (fun i _ => (.ok (10 + i) : Except JsError Nat)) [2, 0, 1]
    ["+1555", "+1556", "+1557"] "hi").response =
      some ⟨200, .sent "SMS sent successfully" [10, 11, 12]⟩ := by decide

end Server
